import Mathlib

/-!
A shallow embedding of src/ATMServerUpdater.py (ATMServerUpdater, version
0.1.0) together with proofs about the update orchestration it implements.
Machine integers are modelled as Nat / Int.  The two places where the source
uses Python float arithmetic (the quotients inside convert_size and the
percentage inside download_progress_hook) are modelled by exact integer
arithmetic; every concrete input evaluated below is one at which the float
computation of the source is exact.
-/

/-- Release (source lines 24 to 43): an immutable value built from one entry
of the registry JSON response.  Field names follow the Python attribute
names; the user dictionary is modelled as a key-value list. -/
structure Release where
  id : Int
  date_created : String
  date_modified : String
  display_name : String
  file_length : Int
  file_name : String
  status : Int
  game_versions : List String
  game_version_type_ids : List Int
  release_type : Int
  total_downloads : Int
  user : List (String × String)
  additional_files_count : Int
  has_server_pack : Bool
  additional_server_pack_files_count : Int
  is_early_access_content : Bool
  deriving DecidableEq

/-- Config (source lines 78 to 88 and 179 to 207): the fields of the
config.json document the script reads at startup and rewrites at the end of a
run.  current_version and data are nullable. -/
structure Config where
  all_the_mods_9 : String
  page_index : Int
  page_size : Int
  sort : String
  sort_desc : String
  remove_alphas : String
  current_version : Option String
  data : Option String
  deriving DecidableEq

/-- Source lines 108 to 109:
release.additional_files_count > 0 and release.has_server_pack. -/
def has_server_files (release : Release) : Bool :=
  decide (release.additional_files_count > 0) && release.has_server_pack

/-- Python str.split(sep) for a one-character separator: splits at every
occurrence of the separator, keeps empty segments, never strips whitespace,
and always returns a non-empty list. -/
def splitChar (c : Char) : List Char → List (List Char)
  | [] => [[]]
  | x :: xs =>
    if x = c then [] :: splitChar c xs
    else
      match splitChar c xs with
      | [] => [[x]]
      | y :: ys => (x :: y) :: ys

/-- Python split for a one-character separator, on strings. -/
def py_split (sep : Char) (s : String) : List String :=
  (splitChar sep s.toList).map (fun cs => String.mk cs)

/-- The last element of a list of strings, with a default for the empty list
(py_split never returns an empty list, so the default is never used). -/
def lastOr (d : String) : List String → String
  | [] => d
  | [x] => x
  | _ :: x :: xs => lastOr d (x :: xs)

/-- Source lines 117 to 118: release.display_name.split("-")[-1], the last
segment of the display name after splitting on the bare hyphen (surrounding
whitespace is kept by the split). -/
def parse_version (release : Release) : String :=
  lastOr "" (py_split '-' release.display_name)

/-- Source line 125: the tuple of unit names. -/
def size_name : List String :=
  ["B", "KB", "MB", "GB", "TB", "PB", "EB", "ZB", "YB"]

/-- Source line 126: int(math.floor(math.log(size_bytes, 1024))) for
size_bytes at least 1, i.e. the floor of the base-1024 logarithm, written as
a threshold chain so the kernel can evaluate it.  For inputs of 1024^9 and
beyond the source would raise IndexError on the tuple lookup of line 130;
convert_size models that lookup with a default. -/
def size_index (n : Nat) : Nat :=
  if n < 1024 then 0
  else if n < 1024 ^ 2 then 1
  else if n < 1024 ^ 3 then 2
  else if n < 1024 ^ 4 then 3
  else if n < 1024 ^ 5 then 4
  else if n < 1024 ^ 6 then 5
  else if n < 1024 ^ 7 then 6
  else if n < 1024 ^ 8 then 7
  else if n < 1024 ^ 9 then 8
  else 9

/-- Python round(a / b) for natural a and positive b: nearest integer with
ties to even, which is what round does on a float quotient that is exactly
representable. -/
def halfEvenDiv (a b : Nat) : Nat :=
  let f := a / b
  let r := a % b
  if 2 * r < b then f
  else if b < 2 * r then f + 1
  else if f % 2 = 0 then f else f + 1

/-- The decimal digit characters. -/
def digitChar (d : Nat) : Char :=
  if d = 1 then '1' else if d = 2 then '2' else if d = 3 then '3'
  else if d = 4 then '4' else if d = 5 then '5' else if d = 6 then '6'
  else if d = 7 then '7' else if d = 8 then '8' else if d = 9 then '9'
  else '0'

/-- Decimal digits of n, most significant first; the first argument is fuel
(n itself suffices) so the recursion is structural. -/
def natDigits : Nat → Nat → List Char
  | 0, _ => []
  | fuel + 1, n =>
    if n = 0 then [] else natDigits fuel (n / 10) ++ [digitChar (n % 10)]

/-- Decimal rendering of a natural number. -/
def natToStr (n : Nat) : String :=
  if n = 0 then "0" else String.mk (natDigits n n)

/-- Python float repr of cents / 100 for a natural cents value, exact to two
decimals: trailing zeros of the fraction are dropped but at least one
fractional digit is kept, so 100 renders as 1.0, 150 as 1.5, 105 as 1.05. -/
def formatCents (cents : Nat) : String :=
  let ip := natToStr (cents / 100)
  let fr := cents % 100
  if fr = 0 then ip ++ ".0"
  else if fr % 10 = 0 then ip ++ "." ++ natToStr (fr / 10)
  else if fr < 10 then ip ++ ".0" ++ natToStr fr
  else ip ++ "." ++ natToStr fr

/-- Source lines 121 to 130.  With rounded = true the quotient
size_bytes / 1024^i is rounded to an integer, otherwise it is rounded to two
decimals and rendered like a Python float.  The Python default for rounded is
false; callers here always pass it explicitly. -/
def convert_size (size_bytes : Nat) (rounded : Bool) : String :=
  if size_bytes = 0 then "0 B"
  else
    let i := size_index size_bytes
    let p := 1024 ^ i
    let s :=
      if rounded then natToStr (halfEvenDiv size_bytes p)
      else formatCents (halfEvenDiv (size_bytes * 100) p)
    s ++ " " ++ size_name.getD i ""

/-- Source lines 139 to 144: the cascade of overwriting if statements over
the six fixed labels; the label left in force is the one of the last
threshold reached, which this chain selects directly (index 0 to 5 into the
statuses list of line 137). -/
def statusIndex (percent : Nat) : Nat :=
  if percent = 100 then 5
  else if 90 ≤ percent then 4
  else if 75 ≤ percent then 3
  else if 50 ≤ percent then 2
  else if 20 ≤ percent then 1
  else 0

/-- Observable behaviour of one invocation of the progress callback. -/
inductive HookOutput where
  | noReport
  | report (percent : Nat) (statusIdx : Nat)
  | zeroDivisionError
  deriving DecidableEq

/-- Source lines 133 to 156.  Nothing is printed until the cumulative count
block_count * block_size exceeds 1024.  Beyond that threshold the source
computes percent = int(block_count * block_size * 100 / total_size), which
raises ZeroDivisionError when total_size is 0; for a positive total the
truncated quotient is the floor division modelled here, and the selected
status label is the one of statusIndex. -/
def download_progress_hook (block_count block_size total_size : Nat) : HookOutput :=
  if 1024 < block_count * block_size then
    if total_size = 0 then .zeroDivisionError
    else
      let percent := block_count * block_size * 100 / total_size
      .report percent (statusIndex percent)
  else .noReport

/-- Decision outcomes of the update branch; noNewVersion stands for the final
else branch of source line 282. -/
inductive Decision where
  | updateAvailable
  | upToDate
  | noServerFiles
  | noNewVersion
  deriving DecidableEq

/-- Source lines 255 to 283: the if / elif / elif / else chain of update,
evaluated with the current version in force after the prompt of line 252. -/
def update_decision (current latest_version : String) (has_files : Bool) : Decision :=
  if current ≠ latest_version ∧ has_files = true then .updateAvailable
  else if current = latest_version then .upToDate
  else if has_files = false then .noServerFiles
  else .noNewVersion

/-- Source lines 251 to 253: a missing current version is obtained from the
user before the decision is taken; a present one is kept. -/
def resolveCurrent (cfg : Config) (version_input : String) : String :=
  match cfg.current_version with
  | none => version_input
  | some v => v

/-- Source lines 195 to 209: every configuration field held on the instance
is written back to the document. -/
def save_config (cfg : Config) : Config :=
  { all_the_mods_9 := cfg.all_the_mods_9,
    page_index := cfg.page_index,
    page_size := cfg.page_size,
    sort := cfg.sort,
    sort_desc := cfg.sort_desc,
    remove_alphas := cfg.remove_alphas,
    current_version := cfg.current_version,
    data := cfg.data }

/-- Source lines 159 to 167: get_server_files takes the first entry of the
additional-files response and downloads it under its own file name; the
function returns that file name.  In update the call to this function
(source line 260) is commented out, so the pipeline is never exercised. -/
def get_server_files (server_files_entry : Release) : String :=
  server_files_entry.file_name

/-- Observable outcome of one run of update (source lines 245 to 286): the
decision taken, whether the confirmation prompt was reached together with its
answer, the file downloaded (always none: the download call of line 260 is
commented out in the source), the archive handed to install_update, and the
configuration document as saved at the end. -/
structure UpdateOutcome where
  decision : Decision
  confirmed : Option Bool
  downloaded : Option String
  installed : Option String
  config : Config
  deriving DecidableEq

/-- Source lines 245 to 286.  version_input is the string the user would type
at the version prompt of line 252 (consulted only when the stored version is
absent); confirm is the boolean the yes_no loop of line 258 finally returns
(consulted only when the decision is updateAvailable, the sole branch that
prompts).  On the confirmed path the source performs no download (line 260 is
commented out) and extracts the hard-coded file name of line 262. -/
def update (cfg : Config) (latest_release : Release) (version_input : String) (confirm : Bool) : UpdateOutcome :=
  let latest_version := parse_version latest_release
  let current := resolveCurrent cfg version_input
  let cfg1 : Config := { cfg with current_version := some current }
  let d := update_decision current latest_version (has_server_files latest_release)
  { decision := d,
    confirmed := if d = Decision.updateAvailable then some confirm else none,
    downloaded := none,
    installed :=
      if d = Decision.updateAvailable ∧ confirm = true
      then some "Server-Files-0.1.12.zip" else none,
    config := save_config cfg1 }

/-- A release descriptor with the given display name, file name,
additional-file count and server-pack flag; the remaining fields carry fixed
representative values (update never reads them). -/
def sample_release (dn fn : String) (afc : Int) (hsp : Bool) : Release :=
  { id := 5555555,
    date_created := "2023-10-01T00:00:00.000Z",
    date_modified := "2023-10-01T00:00:00.000Z",
    display_name := dn,
    file_length := 1000000,
    file_name := fn,
    status := 4,
    game_versions := ["1.20.1"],
    game_version_type_ids := [75125],
    release_type := 1,
    total_downloads := 10000,
    user := [("displayName", "ATMTeam")],
    additional_files_count := afc,
    has_server_pack := hsp,
    additional_server_pack_files_count := 1,
    is_early_access_content := false }

/-- A configuration document with the default field values of source lines
79 to 88 and the given current version. -/
def base_config (cv : Option String) : Config :=
  { all_the_mods_9 := "715572",
    page_index := 0,
    page_size := 1,
    sort := "dateCreated",
    sort_desc := "true",
    remove_alphas := "true",
    current_version := cv,
    data := none }

/-- The latest release used in the concrete evaluations: display name with
one hyphen, a server pack, and an artifact file name of its own. -/
def latest_release_ex : Release :=
  sample_release "All the Mods 9 - 0.1.12" "ATM9-0.1.12-server.zip" 1 true

/-- A release whose additional-file count is 0, hence without server files. -/
def release_no_files : Release :=
  sample_release "All the Mods 9 - 0.1.12" "ATM9-0.1.12-server.zip" 0 true

/-- The decision component of an update run is the branch chain evaluated at
the resolved current version, the parsed latest version and the server-file
test of the latest release. -/
theorem update_decision_spec (cfg : Config) (r : Release) (vin : String) (c : Bool) :
    (update cfg r vin c).decision =
      update_decision (resolveCurrent cfg vin) (parse_version r) (has_server_files r) :=
  rfl

/-- The configuration saved by an update run is the starting configuration
with the current version replaced by its resolved value. -/
theorem update_config_spec (cfg : Config) (r : Release) (vin : String) (c : Bool) :
    (update cfg r vin c).config =
      { cfg with current_version := some (resolveCurrent cfg vin) } :=
  rfl

/-- C1: on a confirmed update the saved configuration still holds the pre-run
version, not the parsed latest version: the source never assigns
current_version after the prompt, so the recorded version stays stale even
though the decision was updateAvailable, the prompt was answered yes and the
installation ran. -/
theorem C1_stale_version :
    (update (base_config (some "0.1.11")) latest_release_ex "" true).decision = Decision.updateAvailable ∧
    (update (base_config (some "0.1.11")) latest_release_ex "" true).confirmed = some true ∧
    (update (base_config (some "0.1.11")) latest_release_ex "" true).installed = some "Server-Files-0.1.12.zip" ∧
    parse_version latest_release_ex = " 0.1.12" ∧
    (update (base_config (some "0.1.11")) latest_release_ex "" true).config.current_version = some "0.1.11" ∧
    (update (base_config (some "0.1.11")) latest_release_ex "" true).config.current_version ≠
      some (parse_version latest_release_ex) := by
  decide

/-- C2: on the confirmed path nothing is downloaded (the get_server_files
call at source line 260 is commented out, directly under the comment that
announces the download) and the archive handed to install_update is the
hard-coded Server-Files-0.1.12.zip of line 262, not an artifact of the latest
release, whose own file name differs. -/
theorem C2_no_download :
    (update (base_config (some "0.1.11")) latest_release_ex "" true).confirmed = some true ∧
    (update (base_config (some "0.1.11")) latest_release_ex "" true).downloaded = none ∧
    (update (base_config (some "0.1.11")) latest_release_ex "" true).installed = some "Server-Files-0.1.12.zip" ∧
    latest_release_ex.file_name = "ATM9-0.1.12-server.zip" ∧
    (update (base_config (some "0.1.11")) latest_release_ex "" true).installed ≠
      some latest_release_ex.file_name := by
  decide

/-- C3: the decision follows the fixed priority.  With the stored version
resolved against the prompted input (consulted exactly when the stored one is
absent), equality with the parsed latest version yields upToDate regardless
of server-file availability; otherwise a missing server pack yields
noServerFiles; otherwise updateAvailable. -/
theorem C3_decision_priority (cfg : Config) (r : Release) (vin : String) (c : Bool) :
    (resolveCurrent cfg vin = parse_version r →
      (update cfg r vin c).decision = Decision.upToDate) ∧
    (resolveCurrent cfg vin ≠ parse_version r → has_server_files r = false →
      (update cfg r vin c).decision = Decision.noServerFiles) ∧
    (resolveCurrent cfg vin ≠ parse_version r → has_server_files r = true →
      (update cfg r vin c).decision = Decision.updateAvailable) := by
  refine ⟨fun h1 => ?_, fun h1 h2 => ?_, fun h1 h2 => ?_⟩ <;> rw [update_decision_spec]
  · simp [update_decision, h1]
  · simp [update_decision, h1, h2]
  · simp [update_decision, h1, h2]

/-- C3 witness: the three branches of the priority at concrete inputs; the
upToDate instance uses a release without server files, showing the equality
check wins over the file-availability check. -/
theorem C3_witness :
    (update (base_config (some " 0.1.12")) release_no_files "" true).decision = Decision.upToDate ∧
    (update (base_config (some "0.1.11")) release_no_files "" true).decision = Decision.noServerFiles ∧
    (update (base_config (some "0.1.11")) latest_release_ex "" true).decision = Decision.updateAvailable :=
  ⟨(C3_decision_priority (base_config (some " 0.1.12")) release_no_files "" true).1 (by decide),
   (C3_decision_priority (base_config (some "0.1.11")) release_no_files "" true).2.1 (by decide) (by decide),
   (C3_decision_priority (base_config (some "0.1.11")) latest_release_ex "" true).2.2 (by decide) (by decide)⟩

/-- C4 counterexample: a run that starts with an absent current version,
receives a version from the prompt, and then declines the update persists
that prompted version, so the current-version field after the run differs
from its value when the run started (null before, a string after), even
though the user declined and nothing was installed. -/
theorem C4_counterexample :
    (base_config none).current_version = none ∧
    (update (base_config none) latest_release_ex "0.1.11" false).confirmed = some false ∧
    (update (base_config none) latest_release_ex "0.1.11" false).installed = none ∧
    (update (base_config none) latest_release_ex "0.1.11" false).config.current_version = some "0.1.11" ∧
    (update (base_config none) latest_release_ex "0.1.11" false).config.current_version ≠
      (base_config none).current_version := by
  decide

/-- C4 (amended): when the user declines the confirmation the run persists
the configuration with every field unchanged except that the current version
equals its resolved value at the time of the decision: unchanged whenever it
was present at the start of the run, and equal to the prompted input when it
was absent.  No installation occurs. -/
theorem C4_cancel_preserves (cfg : Config) (r : Release) (vin : String)
    (h : (update cfg r vin false).confirmed = some false) :
    (update cfg r vin false).installed = none ∧
    (update cfg r vin false).config = { cfg with current_version := some (resolveCurrent cfg vin) } ∧
    (∀ v, cfg.current_version = some v →
      (update cfg r vin false).config.current_version = some v) := by
  refine ⟨by simp [update], update_config_spec cfg r vin false, fun v hv => ?_⟩
  rw [update_config_spec]
  simp [resolveCurrent, hv]

/-- C4 witness: a declined run starting from a present version keeps it. -/
theorem C4_witness :
    (update (base_config (some "0.1.11")) latest_release_ex "" false).installed = none ∧
    (update (base_config (some "0.1.11")) latest_release_ex "" false).config =
      { base_config (some "0.1.11") with
        current_version := some (resolveCurrent (base_config (some "0.1.11")) "") } ∧
    (∀ v, (base_config (some "0.1.11")).current_version = some v →
      (update (base_config (some "0.1.11")) latest_release_ex "" false).config.current_version = some v) :=
  C4_cancel_preserves (base_config (some "0.1.11")) latest_release_ex "" (by decide)

/-- C5 counterexample: for the fixed total 2000, two callbacks with
non-decreasing cumulative byte counts 2000 and then 2100 (the reporthook of
urlretrieve overshoots the total on the last block) give percent 100 and then
105, and the selected label index falls back from 5 (the Complete label) to 4
(the 90 percent label): the label is not monotone once percent passes 100. -/
theorem C5_counterexample :
    download_progress_hook 20 100 2000 = HookOutput.report 100 5 ∧
    download_progress_hook 21 100 2000 = HookOutput.report 105 4 ∧
    20 * 100 ≤ 21 * 100 ∧
    statusIndex (21 * 100 * 100 / 2000) < statusIndex (20 * 100 * 100 / 2000) := by
  decide

/-- Monotonicity of the label chain below the top threshold. -/
theorem statusIndex_mono_le {p q : Nat} (hpq : p ≤ q) (hq : q ≤ 100) :
    statusIndex p ≤ statusIndex q := by
  unfold statusIndex
  split_ifs <;> omega

/-- C5 (amended): for a fixed positive total, across callbacks whose
cumulative byte counts are non-decreasing and never exceed the total (so the
computed percentage stays at most 100), the selected status-label index is
monotone non-decreasing.  When the cumulative count overshoots the total the
percentage passes 100 and the label reverts from the Complete label to the 90
percent label, as the counterexample shows. -/
theorem C5_monotone (total c1 c2 : Nat) (ht : 0 < total) (h12 : c1 ≤ c2) (h2 : c2 ≤ total) :
    statusIndex (c1 * 100 / total) ≤ statusIndex (c2 * 100 / total) := by
  apply statusIndex_mono_le
  · exact Nat.div_le_div_right (Nat.mul_le_mul_right 100 h12)
  · calc c2 * 100 / total ≤ total * 100 / total :=
          Nat.div_le_div_right (Nat.mul_le_mul_right 100 h2)
      _ = 100 := Nat.mul_div_cancel_left 100 ht

/-- C5 witness: the amended monotonicity at a concrete in-range sequence. -/
theorem C5_monotone_witness :
    0 < 2000 ∧ 500 ≤ 1000 ∧ 1000 ≤ 2000 ∧
    statusIndex (500 * 100 / 2000) ≤ statusIndex (1000 * 100 / 2000) :=
  ⟨by decide, by decide, by decide,
   C5_monotone 2000 500 1000 (by decide) (by decide) (by decide)⟩

/-- C6: when the callback is invoked with total size 0 and a cumulative byte
count above the 1KB reporting threshold, the source computes
int(block_count * block_size * 100 / total_size) and raises
ZeroDivisionError; no byte-count-only fallback exists in the code. -/
theorem C6_div_by_zero :
    download_progress_hook 2 1025 0 = HookOutput.zeroDivisionError := by
  decide

/-- C7: has_server_files is true exactly when the additional-file count is
strictly positive and the server-pack flag is set; in particular a zero count
gives false whatever the flag. -/
theorem C7_has_server_files (r : Release) :
    (has_server_files r = true ↔ 0 < r.additional_files_count ∧ r.has_server_pack = true) ∧
    (r.additional_files_count = 0 → has_server_files r = false) := by
  constructor
  · simp [has_server_files]
  · intro h
    simp [has_server_files, h]

/-- C7 witness: a release with zero additional files and the server-pack flag
set still reports no server files. -/
theorem C7_witness :
    has_server_files release_no_files = false :=
  (C7_has_server_files release_no_files).2 rfl

/-- C8 counterexample: the source splits the display name on the bare hyphen
and keeps the surrounding whitespace, so the display name of the claim parses
to a version with a leading space, not to the claimed bare version. -/
theorem C8_counterexample :
    parse_version (sample_release "Display Name - 1.2.3" "f.zip" 1 true) = " 1.2.3" ∧
    parse_version (sample_release "Display Name - 1.2.3" "f.zip" 1 true) ≠ "1.2.3" := by
  decide

/-- C8 (amended): the hyphen-delimited display name parses to the trailing
segment with its leading space kept, and a display name without the delimiter
is returned whole. -/
theorem C8_parse_version :
    parse_version (sample_release "Display Name - 1.2.3" "f.zip" 1 true) = " 1.2.3" ∧
    parse_version (sample_release "NoDelimiterName" "f.zip" 1 true) = "NoDelimiterName" := by
  decide

/-- C9 counterexample: with rounding disabled (the Python default), 1024
bytes format as 1.0 KB, because round(1.0, 2) is the float 1.0 and Python
renders it with its fractional digit; the claimed 1 KB appears only with
rounding enabled. -/
theorem C9_counterexample :
    convert_size 1024 false = "1.0 KB" ∧ convert_size 1024 false ≠ "1 KB" := by
  decide

/-- C9 (amended): 0 bytes format as 0 B under either rounding mode; 1024
bytes format as 1.0 KB with rounding disabled and as 1 KB with rounding
enabled; 1536 bytes format as 1.5 KB with rounding disabled, all in the
binary 1024-based units. -/
theorem C9_convert_size :
    convert_size 0 false = "0 B" ∧
    convert_size 0 true = "0 B" ∧
    convert_size 1024 false = "1.0 KB" ∧
    convert_size 1024 true = "1 KB" ∧
    convert_size 1536 false = "1.5 KB" := by
  decide

/-- C10: for every starting configuration, latest release, prompted input and
confirmation answer, the decision of the run is one of updateAvailable,
upToDate and noServerFiles; the residual fourth branch (the No new version
found message of source line 283) is unreachable. -/
theorem C10_exhaustive (cfg : Config) (r : Release) (vin : String) (c : Bool) :
    ((update cfg r vin c).decision = Decision.updateAvailable ∨
     (update cfg r vin c).decision = Decision.upToDate ∨
     (update cfg r vin c).decision = Decision.noServerFiles) ∧
    (update cfg r vin c).decision ≠ Decision.noNewVersion := by
  rw [update_decision_spec]
  unfold update_decision
  split_ifs with h1 h2 h3 <;> simp_all

/-- C10 witness: the exhaustiveness statement instantiated at one run. -/
theorem C10_witness :
    ((update (base_config (some "0.1.11")) latest_release_ex "" true).decision = Decision.updateAvailable ∨
     (update (base_config (some "0.1.11")) latest_release_ex "" true).decision = Decision.upToDate ∨
     (update (base_config (some "0.1.11")) latest_release_ex "" true).decision = Decision.noServerFiles) ∧
    (update (base_config (some "0.1.11")) latest_release_ex "" true).decision ≠ Decision.noNewVersion :=
  C10_exhaustive (base_config (some "0.1.11")) latest_release_ex "" true
